import Mathlib

/-!
Verification of the dictation session controller in src/apps/dictate.py.

The definitions below are a shallow embedding of the parts of dictate.py
that the claims are about: the argument parser (parse_arguments, lines
50-84), the fan-out of a transcription result to the output sinks in each
mode (run_spacebar_mode lines 388-418, run_interactive_mode "record"
lines 520-551 and "continuous" lines 559-602, main continuous lines
768-797 and single-recording lines 812-841), the bounded recording loop
(record_until_shift_spacebar, lines 171-251), and the interactive
command dispatch (run_interactive_mode, lines 482-692).

Times are modelled in milliseconds as naturals.  One audio chunk is
1024 frames at 16000 Hz, that is 64 ms per blocking stream read.
Python float delays are modelled as rationals (the binary rounding of
Python floats is not modelled; delay values are only ever compared for
unchangedness here).  The Python string methods strip, lower, split and
isdigit are implemented below as structural functions on the character
list of a String, which agree with Python on the ASCII text the tool
handles.
-/

namespace Dictate

/-- Python str.strip: drop leading and trailing whitespace. -/
def pyStrip (s : String) : String :=
  String.mk (((s.data.dropWhile Char.isWhitespace).reverse.dropWhile Char.isWhitespace).reverse)

/-- Python str.lower on ASCII text. -/
def pyLower (s : String) : String :=
  String.mk (s.data.map Char.toLower)

/-- The platform the process runs on; sys.platform is "darwin" on macOS. -/
inductive Platform
  | darwin
  | windows
  | linuxOS
deriving DecidableEq, Repr

/-- The key combination sent by pyautogui.hotkey for pasting. -/
inductive PasteKey
  | cmdV
  | ctrlV
deriving DecidableEq, Repr

/-- One observable output-sink action of a fan-out pass:
echoing the transcription to the terminal, appending to the transcript
file, flushing the transcript file, writing the clipboard, or sending
the paste key combination. -/
inductive SinkEvent
  | echo (text : String)
  | fileWrite (text : String)
  | fileFlush
  | clipboard (text : String)
  | paste (key : PasteKey)
deriving DecidableEq, Repr

/-- Platform-selected paste key combination: the test
sys.platform == "darwin" at lines 414-417 and 547-550 of dictate.py. -/
def pasteKeyFor (p : Platform) : PasteKey :=
  if p = Platform.darwin then PasteKey.cmdV else PasteKey.ctrlV

/-- The parsed argparse namespace of parse_arguments (lines 50-84). -/
structure Args where
  model : String
  language : Option String
  save : Option String
  continuous : Bool
  duration : Nat
  skipCheck : Bool
  clipboard : Bool
  autopaste : Bool
  delay : ℚ
  interactive : Bool
  spacebar : Bool
  noSpacebar : Bool
deriving DecidableEq, Repr

/-- A command line: which options were passed and with which values. -/
structure CmdFlags where
  model : Option String := none
  language : Option String := none
  save : Option String := none
  continuous : Bool := false
  duration : Option Nat := none
  skipCheck : Bool := false
  clipboardFlag : Bool := false
  autopaste : Bool := false
  delay : Option ℚ := none
  interactive : Bool := false
  spacebarFlag : Bool := false
  noSpacebar : Bool := false
deriving DecidableEq, Repr

/-- parse_arguments (lines 50-84).  --clipboard is a store_true action
whose default is already True (line 65), so args.clipboard is True no
matter what was passed.  --spacebar likewise defaults to True (line 73)
and is then forced False when --no-spacebar was given (lines 81-82). -/
def parseArguments (f : CmdFlags) : Args :=
  { model := f.model.getD "small"
    language := f.language
    save := f.save
    continuous := f.continuous
    duration := f.duration.getD 10
    skipCheck := f.skipCheck
    clipboard := true
    autopaste := f.autopaste
    delay := f.delay.getD 1
    interactive := f.interactive
    spacebar := !f.noSpacebar
    noSpacebar := f.noSpacebar }

/-- Which top-level loop main runs. -/
inductive Mode
  | spacebarMode
  | interactiveMode
  | continuousMode
  | singleMode
deriving DecidableEq, Repr

/-- The mode selection in main (lines 733-758): spacebar mode when
args.spacebar, else interactive when args.interactive, else the
continuous or single-recording loop depending on args.continuous. -/
def selectMode (a : Args) : Mode :=
  if a.spacebar then Mode.spacebarMode
  else if a.interactive then Mode.interactiveMode
  else if a.continuous then Mode.continuousMode
  else Mode.singleMode

/-- Fan-out of one transcription in run_spacebar_mode (lines 395-418):
result text is stripped; when non-empty the text is printed (line 398),
appended and flushed to the output file when one was opened from
args.save (lines 401-403), always copied to the clipboard (line 406),
and pasted with the platform-selected key when args.autopaste
(lines 410-417). -/
def dispatchSpacebar (a : Args) (plat : Platform) (raw : String) : List SinkEvent :=
  let t := pyStrip raw
  if t = "" then []
  else
    SinkEvent.echo t ::
      ((if a.save.isSome then [SinkEvent.fileWrite t, SinkEvent.fileFlush] else []) ++
        [SinkEvent.clipboard t] ++
        (if a.autopaste then [SinkEvent.paste (pasteKeyFor plat)] else []))

/-- Live interactive-mode settings, the dict built at lines 448-457.
outputFile models the open transcript file handle (none = closed);
loadedModel is the whisper model object currently loaded (the local
variable model), as opposed to the stored name settings["model"]. -/
structure ISettings where
  model : String
  language : Option String
  saveFile : Option String
  clipboard : Bool
  autopaste : Bool
  delay : ℚ
  duration : Nat
  outputFile : Option String
  loadedModel : String
deriving DecidableEq, Repr

/-- The initial interactive settings from the parsed args
(lines 448-461): the output file is opened iff args.save is set. -/
def initISettings (a : Args) : ISettings :=
  { model := a.model
    language := a.language
    saveFile := a.save
    clipboard := a.clipboard
    autopaste := a.autopaste
    delay := a.delay
    duration := a.duration
    outputFile := a.save
    loadedModel := a.model }

/-- Fan-out of one transcription of the interactive "record" command
(lines 527-551): print (line 530), file append and flush if the output
file is open (lines 533-535), clipboard iff clipboard or autopaste
(lines 537-540), paste with the platform-selected key iff autopaste
(lines 542-551). -/
def dispatchInteractive (s : ISettings) (plat : Platform) (raw : String) : List SinkEvent :=
  let t := pyStrip raw
  if t = "" then []
  else
    SinkEvent.echo t ::
      ((if s.outputFile.isSome then [SinkEvent.fileWrite t, SinkEvent.fileFlush] else []) ++
        (if s.clipboard || s.autopaste then [SinkEvent.clipboard t] else []) ++
        (if s.autopaste then [SinkEvent.paste (pasteKeyFor plat)] else []))

/-- Fan-out of one transcription of the interactive "continuous" command
(lines 576-602); same sinks and order as the "record" command. -/
def dispatchContinuousInteractive (s : ISettings) (plat : Platform) (raw : String) :
    List SinkEvent :=
  let t := pyStrip raw
  if t = "" then []
  else
    SinkEvent.echo t ::
      ((if s.outputFile.isSome then [SinkEvent.fileWrite t, SinkEvent.fileFlush] else []) ++
        (if s.clipboard || s.autopaste then [SinkEvent.clipboard t] else []) ++
        (if s.autopaste then [SinkEvent.paste (pasteKeyFor plat)] else []))

/-- Fan-out of one transcription of the continuous loop in main
(lines 775-797): print with timestamp (line 780), file append and flush
(lines 783-785), clipboard always (line 788, "ALWAYS do this in
continuous mode"), and on autopaste the hard-coded hotkey ctrl+v at
line 795, with no platform test. -/
def dispatchContinuousMain (a : Args) (_plat : Platform) (raw : String) : List SinkEvent :=
  let t := pyStrip raw
  if t = "" then []
  else
    SinkEvent.echo t ::
      ((if a.save.isSome then [SinkEvent.fileWrite t, SinkEvent.fileFlush] else []) ++
        [SinkEvent.clipboard t] ++
        (if a.autopaste then [SinkEvent.paste PasteKey.ctrlV] else []))

/-- Fan-out of the single-recording path in main (lines 820-841):
print (line 824), file append with NO flush (line 827), clipboard iff
clipboard or autopaste (lines 831-833), and on autopaste the hard-coded
hotkey ctrl+v at line 839, with no platform test. -/
def dispatchSingleMain (a : Args) (_plat : Platform) (raw : String) : List SinkEvent :=
  let t := pyStrip raw
  if t = "" then []
  else
    SinkEvent.echo t ::
      ((if a.save.isSome then [SinkEvent.fileWrite t] else []) ++
        (if a.clipboard || a.autopaste then [SinkEvent.clipboard t] else []) ++
        (if a.autopaste then [SinkEvent.paste PasteKey.ctrlV] else []))

/-- Whether a transcript-file write is immediately followed by a flush,
as at lines 402-403, 534-535, 585-586 and 784-785 of dictate.py. -/
def flushedImmediately : List SinkEvent → Bool
  | [] => true
  | SinkEvent.fileWrite _ :: SinkEvent.fileFlush :: rest => flushedImmediately rest
  | SinkEvent.fileWrite _ :: _ => false
  | _ :: rest => flushedImmediately rest

/-- Whether each fallible sink operation of one pass would succeed:
the transcript write, the clipboard write, and the paste simulation. -/
structure SinkOutcomes where
  fileOk : Bool
  clipOk : Bool
  pasteOk : Bool
deriving DecidableEq, Repr

/-- The exception a failing sink raises. -/
inductive SinkFail
  | fileFail
  | clipFail
  | pasteFail
deriving DecidableEq, Repr

/-- Sequential execution of the sinks of one fan-out pass with the
given per-sink outcomes.  dictate.py wraps no individual sink in a
try/except, so Python control flow leaves the pass at the first raising
sink: the returned list is what was attempted (the terminal print first,
then the enabled sinks in order up to and including the failing one) and
the second component is the escaping exception, if any. -/
def runSinksFrom (t : String) (fileEnabled clipEnabled pasteEnabled : Bool)
    (key : PasteKey) (o : SinkOutcomes) : List SinkEvent × Option SinkFail :=
  let es0 := [SinkEvent.echo t]
  if fileEnabled && !o.fileOk then
    (es0 ++ [SinkEvent.fileWrite t], some SinkFail.fileFail)
  else
    let es1 := if fileEnabled then es0 ++ [SinkEvent.fileWrite t, SinkEvent.fileFlush] else es0
    if clipEnabled && !o.clipOk then
      (es1 ++ [SinkEvent.clipboard t], some SinkFail.clipFail)
    else
      let es2 := if clipEnabled then es1 ++ [SinkEvent.clipboard t] else es1
      if pasteEnabled && !o.pasteOk then
        (es2 ++ [SinkEvent.paste key], some SinkFail.pasteFail)
      else
        let es3 := if pasteEnabled then es2 ++ [SinkEvent.paste key] else es2
        (es3, none)

/-- One spacebar-mode fan-out pass under the failure model: the sinks of
run_spacebar_mode (file iff args.save, clipboard always, paste iff
args.autopaste with the platform key) run in order until one raises. -/
def runSinksSpacebar (a : Args) (plat : Platform) (raw : String) (o : SinkOutcomes) :
    List SinkEvent × Option SinkFail :=
  let t := pyStrip raw
  if t = "" then ([], none)
  else runSinksFrom t a.save.isSome true a.autopaste (pasteKeyFor plat) o

/-- One interactive-mode fan-out pass under the failure model
(lines 527-551). -/
def runSinksInteractive (s : ISettings) (plat : Platform) (raw : String) (o : SinkOutcomes) :
    List SinkEvent × Option SinkFail :=
  let t := pyStrip raw
  if t = "" then ([], none)
  else runSinksFrom t s.outputFile.isSome (s.clipboard || s.autopaste) s.autopaste
    (pasteKeyFor plat) o

/-- Whether the enclosing session survives a fan-out pass. -/
inductive Fate
  | continueSession
  | terminated
deriving DecidableEq, Repr

/-- What becomes of the spacebar-mode session when a sink exception
escapes the pass: the while-loop of run_spacebar_mode is guarded only by
an except KeyboardInterrupt clause (line 431), so any sink exception
propagates out of the loop and the session is over. -/
def spacebarFate : Option SinkFail → Fate
  | none => Fate.continueSession
  | some _ => Fate.terminated

/-- What becomes of the interactive session when a sink exception
escapes the pass: the per-command except Exception handler at line 691
catches it, prints it, and the command loop continues. -/
def interactiveFate : Option SinkFail → Fate :=
  fun _ => Fate.continueSession

/-! ## The bounded recording loop (record_until_shift_spacebar) -/

/-- Duration of one blocking stream read: 1024 frames at 16000 Hz,
about 64 ms (lines 176-177 fix CHUNK = 1024, the default rate is
16000). -/
def chunkMs : Nat := 64

/-- Why the recording loop stopped. -/
inductive StopReason
  | hotkey
  | escape
  | shutdown
  | maxDuration
deriving DecidableEq, Repr

/-- The recording loop of record_until_shift_spacebar (lines 207-232):
while elapsed < max_duration and running, poll shift+space (stop) and
esc (sets running false), then read one chunk, advancing elapsed by one
chunk time.  The key predicates and the running flag are indexed by the
iteration count; the 0.1 s key-poll throttle of lines 210-222 only
thins the checks and is immaterial when no key is ever pressed.
Returns the stop reason, the elapsed recorded time and the number of
chunks captured. -/
def recLoop (maxMs : Nat) (shiftSpace esc running : Nat → Bool)
    (elapsed frames iter : Nat) : StopReason × Nat × Nat :=
  if h : elapsed < maxMs then
    if running iter then
      if shiftSpace iter then (StopReason.hotkey, elapsed, frames)
      else if esc iter then (StopReason.escape, elapsed, frames)
      else recLoop maxMs shiftSpace esc running (elapsed + chunkMs) (frames + 1) (iter + 1)
    else (StopReason.shutdown, elapsed, frames)
  else (StopReason.maxDuration, elapsed, frames)
termination_by maxMs - elapsed
decreasing_by simp only [chunkMs]; omega

/-- The phase run_spacebar_mode enters after record_until_shift_spacebar
returns (lines 379-393): with the running flag still set, the clip is
handed to model.transcribe; otherwise the function returns. -/
inductive Phase
  | transcribing
  | exiting
deriving DecidableEq, Repr

/-- Lines 379-393 of run_spacebar_mode. -/
def afterRecordSpacebar (runningFlag : Bool) : Phase :=
  if runningFlag then Phase.transcribing else Phase.exiting

/-! ## The interactive command shell (run_interactive_mode) -/

/-- The truthy words accepted by the clipboard/autopaste/save commands
(lines 623, 633). -/
def onWords : List String := ["on", "true", "yes", "1"]

/-- The falsy words accepted by the clipboard/autopaste/save commands
(lines 626, 637, 670). -/
def offWords : List String := ["off", "false", "no", "0"]

/-- The model names accepted by the model command (line 651) and by
argparse (line 53). -/
def validModels : List String := ["tiny", "base", "small", "medium", "large", "turbo"]

/-- Python str.isdigit on the ASCII text the shell receives: non-empty
and all digits. -/
def isPyDigit (s : String) : Bool :=
  !s.data.isEmpty && s.data.all Char.isDigit

/-- The numeric value of a digit string, as Python int(). -/
def natOfDigits (s : String) : Nat :=
  s.data.foldl (fun a c => a * 10 + (c.toNat - 48)) 0

/-- Remove the first dot of a character list, keep the rest. -/
def dropFirstDot : List Char → List Char
  | [] => []
  | c :: rest => if c = '.' then rest else c :: dropFirstDot rest

/-- Python s.replace with a count of one on the dot character: remove
the first dot, keep the rest. -/
def removeFirstDot (s : String) : String :=
  String.mk (dropFirstDot s.data)

/-- The delay-argument validity test of line 644:
arg and arg.replace(dot, empty, 1).isdigit(). -/
def isValidDelay (s : String) : Bool :=
  !s.data.isEmpty && isPyDigit (removeFirstDot s)

/-- Split a character list at its first dot: the part before it and,
when a dot exists, the part after it. -/
def splitFirstDot : List Char → List Char × Option (List Char)
  | [] => ([], none)
  | c :: rest =>
    if c = '.' then ([], some rest)
    else
      let p := splitFirstDot rest
      (c :: p.1, p.2)

/-- Python float() on a string isValidDelay accepts, as a rational. -/
def parseDelayQ (s : String) : ℚ :=
  match splitFirstDot s.data with
  | (i, none) => (natOfDigits (String.mk i) : ℚ)
  | (i, some f) =>
    (natOfDigits (String.mk i) : ℚ) + (natOfDigits (String.mk f) : ℚ) / ((10 : ℚ) ^ f.length)

/-- Whether the shell keeps running after a command. -/
inductive ShellFate
  | continueLoop
  | exitLoop
deriving DecidableEq, Repr

/-- The input split of lines 484-489: strip and lowercase the line,
then split off the first whitespace-delimited word as the command and
the remainder, left-stripped, as the single argument. -/
def splitCmd (line : String) : String × String :=
  let t := (pyLower (pyStrip line)).data
  let cmd := t.takeWhile (fun c => !c.isWhitespace)
  let arg := (t.drop cmd.length).dropWhile Char.isWhitespace
  (String.mk cmd, String.mk arg)

/-- The commands the dispatch chain of lines 492-689 recognises. -/
def knownCmds : List String :=
  ["exit", "quit", "help", "status", "record", "continuous", "language",
    "clipboard", "autopaste", "delay", "model", "save", "duration"]

/-- The command dispatch of run_interactive_mode (lines 492-692) on an
already split command and argument.  loadOk models whether
whisper.load_model succeeds on a given name.  The record and continuous
branches capture and fan out audio (modelled by dispatchInteractive and
dispatchContinuousInteractive) and leave the settings untouched.  In
the model branch, settings["model"] is assigned at line 655 BEFORE
load_model runs at line 656; a load failure is caught by the
except Exception handler at line 691, which prints the error and keeps
looping, so the already-assigned name stays while loadedModel does not
change.  In the save branch the open transcript handle is closed first
(lines 666-668), before the argument is even examined.  Returns the new
state, the printed lines (abridged to their identifying prefixes), and
whether the loop continues. -/
def processParsed (loadOk : String → Bool) (st : ISettings) (cmd arg : String) :
    ISettings × List String × ShellFate :=
  if cmd = "exit" || cmd = "quit" then
    (st, ["Exiting..."], ShellFate.exitLoop)
  else if cmd = "help" then
    (st, ["=== Interactive Mode Commands ==="], ShellFate.continueLoop)
  else if cmd = "status" then
    (st, ["=== Current Settings ==="], ShellFate.continueLoop)
  else if cmd = "record" then
    (st, ["Recording..."], ShellFate.continueLoop)
  else if cmd = "continuous" then
    (st, ["Starting continuous recording."], ShellFate.continueLoop)
  else if cmd = "language" then
    if arg = "auto" || arg = "" then
      ({ st with language := none }, ["Language set to auto-detect"], ShellFate.continueLoop)
    else
      ({ st with language := some arg }, ["Language set to: " ++ arg], ShellFate.continueLoop)
  else if cmd = "clipboard" then
    if arg ∈ onWords then
      ({ st with clipboard := true }, ["Clipboard copying enabled"], ShellFate.continueLoop)
    else if arg ∈ offWords then
      ({ st with clipboard := false }, ["Clipboard copying disabled"], ShellFate.continueLoop)
    else
      (st, ["Invalid option: " ++ arg], ShellFate.continueLoop)
  else if cmd = "autopaste" then
    if arg ∈ onWords then
      ({ st with autopaste := true, clipboard := true },
        ["Auto-pasting enabled"], ShellFate.continueLoop)
    else if arg ∈ offWords then
      ({ st with autopaste := false }, ["Auto-pasting disabled"], ShellFate.continueLoop)
    else
      (st, ["Invalid option: " ++ arg], ShellFate.continueLoop)
  else if cmd = "delay" then
    if isValidDelay arg then
      ({ st with delay := parseDelayQ arg }, ["Auto-paste delay set"], ShellFate.continueLoop)
    else
      (st, ["Invalid delay: " ++ arg], ShellFate.continueLoop)
  else if cmd = "model" then
    if arg ∈ validModels then
      if arg ≠ st.model then
        if loadOk arg then
          ({ st with model := arg, loadedModel := arg },
            ["Changing model to " ++ arg, "Model loaded!"], ShellFate.continueLoop)
        else
          ({ st with model := arg },
            ["Changing model to " ++ arg, "Error:"], ShellFate.continueLoop)
      else
        (st, ["Model is already set to " ++ arg], ShellFate.continueLoop)
    else
      (st, ["Invalid model name: " ++ arg], ShellFate.continueLoop)
  else if cmd = "save" then
    let st1 := { st with outputFile := none }
    if arg ∈ offWords then
      ({ st1 with saveFile := none }, ["File saving disabled"], ShellFate.continueLoop)
    else if arg ≠ "" then
      ({ st1 with saveFile := some arg, outputFile := some arg },
        ["Saving transcriptions to: " ++ arg], ShellFate.continueLoop)
    else
      (st1, ["Please specify a filename"], ShellFate.continueLoop)
  else if cmd = "duration" then
    if isPyDigit arg then
      ({ st with duration := natOfDigits arg },
        ["Recording duration set"], ShellFate.continueLoop)
    else
      (st, ["Invalid duration: " ++ arg], ShellFate.continueLoop)
  else
    (st, ["Unknown command: " ++ cmd, "Type help for available commands"],
      ShellFate.continueLoop)

/-- One iteration of the interactive loop: split the input line and
dispatch (lines 484-692). -/
def processCommand (loadOk : String → Bool) (st : ISettings) (line : String) :
    ISettings × List String × ShellFate :=
  processParsed loadOk st (splitCmd line).1 (splitCmd line).2

/-! ## Concrete fixtures used by witnesses and counterexamples -/

/-- The default invocation with a save file and autopaste:
spacebar mode. -/
def argsSP : Args := parseArguments { save := some "t.txt", autopaste := true }

/-- An invocation reaching the single-recording path of main:
no spacebar mode, not interactive, not continuous. -/
def argsNS : Args := parseArguments { noSpacebar := true, autopaste := true, save := some "t.txt" }

/-- An invocation reaching the continuous loop of main. -/
def argsNC : Args :=
  parseArguments { noSpacebar := true, continuous := true, autopaste := true, save := some "t.txt" }

/-- An interactive session started from argsSP: transcript file open,
clipboard and autopaste on, model small loaded. -/
def stEx : ISettings := initISettings argsSP

/-- A model loader for which only the large model fails to load. -/
def lkFail : String → Bool := fun m => m != "large"

/-! ## Claims -/

/-- Claim C10: an invocation without the no-spacebar flag parses with
spacebar mode enabled and main runs the spacebar loop and returns, so
the interactive and continuous flags have no effect without it, and
interactive mode is reachable exactly when both the no-spacebar and the
interactive flags are given. -/
theorem C10_spacebar_default_gating (f : CmdFlags) :
    (f.noSpacebar = false → selectMode (parseArguments f) = Mode.spacebarMode) ∧
    (selectMode (parseArguments f) = Mode.interactiveMode ↔
      f.noSpacebar = true ∧ f.interactive = true) := by
  cases hn : f.noSpacebar <;> cases hi : f.interactive <;> cases hc : f.continuous <;>
    simp [selectMode, parseArguments, hn, hi, hc]

/-- Witness for C10 at concrete command lines: interactive and
continuous without no-spacebar still select spacebar mode, and
no-spacebar plus interactive selects interactive mode. -/
theorem C10_witness :
    selectMode (parseArguments { interactive := true, continuous := true }) =
      Mode.spacebarMode ∧
    selectMode (parseArguments { noSpacebar := true, interactive := true }) =
      Mode.interactiveMode :=
  ⟨(C10_spacebar_default_gating { interactive := true, continuous := true }).1 rfl,
    (C10_spacebar_default_gating { noSpacebar := true, interactive := true }).2.mpr ⟨rfl, rfl⟩⟩

/-- Claim C1: a transcription whose stripped text is empty invokes no
output sink in any mode, and under the failure model the pass attempts
nothing and raises nothing. -/
theorem C1_empty_transcription_no_sinks (a : Args) (s : ISettings) (plat : Platform)
    (raw : String) (o : SinkOutcomes) (h : pyStrip raw = "") :
    dispatchSpacebar a plat raw = [] ∧
    dispatchInteractive s plat raw = [] ∧
    dispatchContinuousInteractive s plat raw = [] ∧
    dispatchContinuousMain a plat raw = [] ∧
    dispatchSingleMain a plat raw = [] ∧
    runSinksSpacebar a plat raw o = ([], none) ∧
    runSinksInteractive s plat raw o = ([], none) := by
  simp [dispatchSpacebar, dispatchInteractive, dispatchContinuousInteractive,
    dispatchContinuousMain, dispatchSingleMain, runSinksSpacebar, runSinksInteractive, h]

/-- Witness for C1 on a whitespace-only transcription. -/
theorem C1_witness :
    dispatchSpacebar argsSP Platform.darwin "   " = [] ∧
    dispatchInteractive stEx Platform.darwin "   " = [] ∧
    dispatchContinuousInteractive stEx Platform.darwin "   " = [] ∧
    dispatchContinuousMain argsSP Platform.darwin "   " = [] ∧
    dispatchSingleMain argsSP Platform.darwin "   " = [] ∧
    runSinksSpacebar argsSP Platform.darwin "   " ⟨true, true, true⟩ = ([], none) ∧
    runSinksInteractive stEx Platform.darwin "   " ⟨true, true, true⟩ = ([], none) :=
  C1_empty_transcription_no_sinks argsSP stEx Platform.darwin "   " ⟨true, true, true⟩ (by decide)

/-- Claim C5, evaluated at the failing input: on macOS (darwin) the
platform-selected paste combination is command and v, and spacebar mode
does send it, but both the continuous loop and the single-recording
path of main send ctrl and v unconditionally, even on darwin. -/
theorem C5_paste_key_not_platform_selected :
    pasteKeyFor Platform.darwin = PasteKey.cmdV ∧
    SinkEvent.paste PasteKey.cmdV ∈ dispatchSpacebar argsSP Platform.darwin "hi" ∧
    SinkEvent.paste PasteKey.ctrlV ∈ dispatchContinuousMain argsNC Platform.darwin "hi" ∧
    SinkEvent.paste PasteKey.cmdV ∉ dispatchContinuousMain argsNC Platform.darwin "hi" ∧
    SinkEvent.paste PasteKey.ctrlV ∈ dispatchSingleMain argsNS Platform.darwin "hi" ∧
    SinkEvent.paste PasteKey.cmdV ∉ dispatchSingleMain argsNS Platform.darwin "hi" := by
  decide

/-- Counterexample to claim C2 as stated: in spacebar mode, on a
non-empty transcription with a save file and autopaste configured, the
terminal echo is the first sink action, not the last one. -/
theorem C2_counterexample :
    (dispatchSpacebar argsSP Platform.linuxOS "hi").getLast? ≠
      some (SinkEvent.echo "hi") ∧
    (dispatchSpacebar argsSP Platform.linuxOS "hi").head? = some (SinkEvent.echo "hi") := by
  decide

/-- Claim C2 as amended: for every non-empty transcription the sinks
run in the fixed order terminal echo, then transcript-file append,
then clipboard, then paste; the echo always occurs and occurs FIRST
(not last), the file sink is attempted before the clipboard sink
whenever both are enabled, and the clipboard before the paste. -/
theorem C2_amended_sink_order (a : Args) (s : ISettings) (plat : Platform) (raw : String)
    (h : pyStrip raw ≠ "") :
    (∃ fe ce pe,
      dispatchSpacebar a plat raw = SinkEvent.echo (pyStrip raw) :: (fe ++ ce ++ pe) ∧
      (∀ e ∈ fe, e = SinkEvent.fileWrite (pyStrip raw) ∨ e = SinkEvent.fileFlush) ∧
      (∀ e ∈ ce, e = SinkEvent.clipboard (pyStrip raw)) ∧
      (∀ e ∈ pe, e = SinkEvent.paste (pasteKeyFor plat)) ∧
      SinkEvent.clipboard (pyStrip raw) ∈ ce ∧
      (a.save.isSome = true → SinkEvent.fileWrite (pyStrip raw) ∈ fe) ∧
      (a.autopaste = true → SinkEvent.paste (pasteKeyFor plat) ∈ pe)) ∧
    (∃ fe ce pe,
      dispatchInteractive s plat raw = SinkEvent.echo (pyStrip raw) :: (fe ++ ce ++ pe) ∧
      (∀ e ∈ fe, e = SinkEvent.fileWrite (pyStrip raw) ∨ e = SinkEvent.fileFlush) ∧
      (∀ e ∈ ce, e = SinkEvent.clipboard (pyStrip raw)) ∧
      (∀ e ∈ pe, e = SinkEvent.paste (pasteKeyFor plat)) ∧
      (s.outputFile.isSome = true → SinkEvent.fileWrite (pyStrip raw) ∈ fe) ∧
      ((s.clipboard || s.autopaste) = true → SinkEvent.clipboard (pyStrip raw) ∈ ce) ∧
      (s.autopaste = true → SinkEvent.paste (pasteKeyFor plat) ∈ pe)) := by
  constructor
  · refine ⟨if a.save.isSome then
        [SinkEvent.fileWrite (pyStrip raw), SinkEvent.fileFlush] else [],
      [SinkEvent.clipboard (pyStrip raw)],
      if a.autopaste then [SinkEvent.paste (pasteKeyFor plat)] else [],
      ?_, ?_, ?_, ?_, ?_, ?_, ?_⟩
    · simp [dispatchSpacebar, h]
    · cases hs : a.save.isSome <;> simp
    · simp
    · cases hp : a.autopaste <;> simp
    · simp
    · intro hs; simp [hs]
    · intro hp; simp [hp]
  · refine ⟨if s.outputFile.isSome then
        [SinkEvent.fileWrite (pyStrip raw), SinkEvent.fileFlush] else [],
      if s.clipboard || s.autopaste then [SinkEvent.clipboard (pyStrip raw)] else [],
      if s.autopaste then [SinkEvent.paste (pasteKeyFor plat)] else [],
      ?_, ?_, ?_, ?_, ?_, ?_, ?_⟩
    · simp [dispatchInteractive, h]
    · cases hs : s.outputFile.isSome <;> simp
    · cases hc : s.clipboard || s.autopaste <;> simp
    · cases hp : s.autopaste <;> simp
    · intro hs; simp [hs]
    · intro hc; simp [hc]
    · intro hp; simp [hp]

/-- Witness for the amended C2 on a concrete non-empty transcription
with a save file, clipboard and autopaste all enabled. -/
theorem C2_witness :
    (∃ fe ce pe,
      dispatchSpacebar argsSP Platform.darwin "hi" = SinkEvent.echo (pyStrip "hi") :: (fe ++ ce ++ pe) ∧
      (∀ e ∈ fe, e = SinkEvent.fileWrite (pyStrip "hi") ∨ e = SinkEvent.fileFlush) ∧
      (∀ e ∈ ce, e = SinkEvent.clipboard (pyStrip "hi")) ∧
      (∀ e ∈ pe, e = SinkEvent.paste (pasteKeyFor Platform.darwin)) ∧
      SinkEvent.clipboard (pyStrip "hi") ∈ ce ∧
      (argsSP.save.isSome = true → SinkEvent.fileWrite (pyStrip "hi") ∈ fe) ∧
      (argsSP.autopaste = true → SinkEvent.paste (pasteKeyFor Platform.darwin) ∈ pe)) ∧
    (∃ fe ce pe,
      dispatchInteractive stEx Platform.darwin "hi" = SinkEvent.echo (pyStrip "hi") :: (fe ++ ce ++ pe) ∧
      (∀ e ∈ fe, e = SinkEvent.fileWrite (pyStrip "hi") ∨ e = SinkEvent.fileFlush) ∧
      (∀ e ∈ ce, e = SinkEvent.clipboard (pyStrip "hi")) ∧
      (∀ e ∈ pe, e = SinkEvent.paste (pasteKeyFor Platform.darwin)) ∧
      (stEx.outputFile.isSome = true → SinkEvent.fileWrite (pyStrip "hi") ∈ fe) ∧
      ((stEx.clipboard || stEx.autopaste) = true → SinkEvent.clipboard (pyStrip "hi") ∈ ce) ∧
      (stEx.autopaste = true → SinkEvent.paste (pasteKeyFor Platform.darwin) ∈ pe)) :=
  C2_amended_sink_order argsSP stEx Platform.darwin "hi" (by decide)

/-- Claim C3: on a non-empty transcription the clipboard sink fires
exactly when clipboard or autopaste is enabled in the settings in
effect for the cycle.  In spacebar mode and in the two main-loop modes
those settings come from parse_arguments, whose clipboard field is
always true, which is why the unconditional copy there satisfies the
equivalence; the interactive modes test the live settings directly. -/
theorem C3_clipboard_iff_enabled (f : CmdFlags) (s : ISettings) (plat : Platform)
    (raw : String) (h : pyStrip raw ≠ "") :
    (SinkEvent.clipboard (pyStrip raw) ∈ dispatchSpacebar (parseArguments f) plat raw ↔
      ((parseArguments f).clipboard || (parseArguments f).autopaste) = true) ∧
    (SinkEvent.clipboard (pyStrip raw) ∈ dispatchInteractive s plat raw ↔
      (s.clipboard || s.autopaste) = true) ∧
    (SinkEvent.clipboard (pyStrip raw) ∈ dispatchContinuousInteractive s plat raw ↔
      (s.clipboard || s.autopaste) = true) ∧
    (SinkEvent.clipboard (pyStrip raw) ∈ dispatchContinuousMain (parseArguments f) plat raw ↔
      ((parseArguments f).clipboard || (parseArguments f).autopaste) = true) ∧
    (SinkEvent.clipboard (pyStrip raw) ∈ dispatchSingleMain (parseArguments f) plat raw ↔
      ((parseArguments f).clipboard || (parseArguments f).autopaste) = true) := by
  refine ⟨?_, ?_, ?_, ?_, ?_⟩
  · simp [dispatchSpacebar, parseArguments, h]
  · cases hc : s.clipboard <;> cases hp : s.autopaste <;>
      cases ho : s.outputFile.isSome <;>
      simp [dispatchInteractive, h, hc, hp, ho]
  · cases hc : s.clipboard <;> cases hp : s.autopaste <;>
      cases ho : s.outputFile.isSome <;>
      simp [dispatchContinuousInteractive, h, hc, hp, ho]
  · simp [dispatchContinuousMain, parseArguments, h]
  · simp [dispatchSingleMain, parseArguments, h]

/-- Witness for C3 on a concrete non-empty transcription: in the
default invocation and in an interactive session the clipboard sink
fires exactly when clipboard or autopaste is on. -/
theorem C3_witness :
    (SinkEvent.clipboard (pyStrip "hi") ∈
        dispatchSpacebar (parseArguments { autopaste := true }) Platform.darwin "hi" ↔
      ((parseArguments { autopaste := true }).clipboard ||
        (parseArguments { autopaste := true }).autopaste) = true) ∧
    (SinkEvent.clipboard (pyStrip "hi") ∈ dispatchInteractive stEx Platform.darwin "hi" ↔
      (stEx.clipboard || stEx.autopaste) = true) ∧
    (SinkEvent.clipboard (pyStrip "hi") ∈
        dispatchContinuousInteractive stEx Platform.darwin "hi" ↔
      (stEx.clipboard || stEx.autopaste) = true) ∧
    (SinkEvent.clipboard (pyStrip "hi") ∈
        dispatchContinuousMain (parseArguments { autopaste := true }) Platform.darwin "hi" ↔
      ((parseArguments { autopaste := true }).clipboard ||
        (parseArguments { autopaste := true }).autopaste) = true) ∧
    (SinkEvent.clipboard (pyStrip "hi") ∈
        dispatchSingleMain (parseArguments { autopaste := true }) Platform.darwin "hi" ↔
      ((parseArguments { autopaste := true }).clipboard ||
        (parseArguments { autopaste := true }).autopaste) = true) :=
  C3_clipboard_iff_enabled { autopaste := true } stEx Platform.darwin "hi" (by decide)

/-- Counterexample to claim C9 as stated: on the single-recording path
of main, a non-empty transcription is appended to the transcript file
with no flush before the clipboard sink is attempted. -/
theorem C9_counterexample :
    SinkEvent.fileWrite "hi" ∈ dispatchSingleMain argsNS Platform.linuxOS "hi" ∧
    SinkEvent.clipboard "hi" ∈ dispatchSingleMain argsNS Platform.linuxOS "hi" ∧
    flushedImmediately (dispatchSingleMain argsNS Platform.linuxOS "hi") = false := by
  decide

/-- Claim C9 as amended: the transcript append is flushed immediately
in spacebar mode, in both interactive modes, and in the continuous loop
of main; on the single-recording path of main the append is not flushed
during the fan-out (the file is only flushed when it is closed on
exit), so later sinks run before the flush. -/
theorem C9_amended_flush (a : Args) (s : ISettings) (plat : Platform) (raw : String) :
    flushedImmediately (dispatchSpacebar a plat raw) = true ∧
    flushedImmediately (dispatchInteractive s plat raw) = true ∧
    flushedImmediately (dispatchContinuousInteractive s plat raw) = true ∧
    flushedImmediately (dispatchContinuousMain a plat raw) = true ∧
    (a.save.isSome = true → pyStrip raw ≠ "" →
      flushedImmediately (dispatchSingleMain a plat raw) = false ∧
      SinkEvent.fileWrite (pyStrip raw) ∈ dispatchSingleMain a plat raw) := by
  by_cases h : pyStrip raw = ""
  · simp [dispatchSpacebar, dispatchInteractive, dispatchContinuousInteractive,
      dispatchContinuousMain, h, flushedImmediately]
  · refine ⟨?_, ?_, ?_, ?_, ?_⟩
    · cases hs : a.save.isSome <;> cases hp : a.autopaste <;>
        simp [dispatchSpacebar, h, hs, hp, flushedImmediately]
    · cases hs : s.outputFile.isSome <;> cases hc : s.clipboard <;>
        cases hp : s.autopaste <;>
        simp [dispatchInteractive, h, hs, hc, hp, flushedImmediately]
    · cases hs : s.outputFile.isSome <;> cases hc : s.clipboard <;>
        cases hp : s.autopaste <;>
        simp [dispatchContinuousInteractive, h, hs, hc, hp, flushedImmediately]
    · cases hs : a.save.isSome <;> cases hp : a.autopaste <;>
        simp [dispatchContinuousMain, h, hs, hp, flushedImmediately]
    · intro hs _
      cases hc : a.clipboard <;> cases hp : a.autopaste <;>
        simp [dispatchSingleMain, h, hs, hc, hp, flushedImmediately]

/-- Witness for the amended C9 at a concrete non-empty transcription
with a save file configured. -/
theorem C9_witness :
    flushedImmediately (dispatchSpacebar argsNS Platform.linuxOS "hi") = true ∧
    flushedImmediately (dispatchInteractive stEx Platform.linuxOS "hi") = true ∧
    flushedImmediately (dispatchContinuousInteractive stEx Platform.linuxOS "hi") = true ∧
    flushedImmediately (dispatchContinuousMain argsNS Platform.linuxOS "hi") = true ∧
    flushedImmediately (dispatchSingleMain argsNS Platform.linuxOS "hi") = false ∧
    SinkEvent.fileWrite (pyStrip "hi") ∈ dispatchSingleMain argsNS Platform.linuxOS "hi" := by
  have h := C9_amended_flush argsNS stEx Platform.linuxOS "hi"
  exact ⟨h.1, h.2.1, h.2.2.1, h.2.2.2.1,
    (h.2.2.2.2 (by decide) (by decide)).1, (h.2.2.2.2 (by decide) (by decide)).2⟩

/-- Counterexample to claim C4 as stated: in spacebar mode, when the
transcript-file write fails, the clipboard sink is not attempted and
the session terminates. -/
theorem C4_counterexample :
    (runSinksSpacebar argsSP Platform.linuxOS "hi" ⟨false, true, true⟩).1 =
      [SinkEvent.echo "hi", SinkEvent.fileWrite "hi"] ∧
    SinkEvent.clipboard "hi" ∉ (runSinksSpacebar argsSP Platform.linuxOS "hi" ⟨false, true, true⟩).1 ∧
    (runSinksSpacebar argsSP Platform.linuxOS "hi" ⟨false, true, true⟩).2 =
      some SinkFail.fileFail ∧
    spacebarFate (runSinksSpacebar argsSP Platform.linuxOS "hi" ⟨false, true, true⟩).2 =
      Fate.terminated := by
  decide

/-- Claim C4 as amended: no sink is individually guarded, so the first
failing sink aborts the remaining sinks of the pass (a failing file
write suppresses clipboard and paste; a failing clipboard write
suppresses paste); the escaping exception is caught by the interactive
command-loop handler, so that session continues, but in spacebar mode
it propagates past the dictation loop and terminates it. -/
theorem C4_amended_sink_failure (t : String) (fe ce pe : Bool) (key : PasteKey)
    (o : SinkOutcomes) :
    (fe = true → o.fileOk = false →
      SinkEvent.clipboard t ∉ (runSinksFrom t fe ce pe key o).1 ∧
      SinkEvent.paste key ∉ (runSinksFrom t fe ce pe key o).1 ∧
      (runSinksFrom t fe ce pe key o).2 = some SinkFail.fileFail) ∧
    (ce = true → o.clipOk = false → (fe = true → o.fileOk = true) →
      SinkEvent.paste key ∉ (runSinksFrom t fe ce pe key o).1 ∧
      (runSinksFrom t fe ce pe key o).2 = some SinkFail.clipFail) ∧
    (∀ err, interactiveFate err = Fate.continueSession) ∧
    (∀ e, spacebarFate (some e) = Fate.terminated) := by
  refine ⟨?_, ?_, fun _ => rfl, fun _ => rfl⟩
  · intro hfe hko
    simp [runSinksFrom, hfe, hko]
  · intro hce hko hfo
    cases hf : fe
    · simp [runSinksFrom, hce, hko, hf]
    · simp [runSinksFrom, hce, hko, hf, hfo hf]

/-- Witness for the amended C4: a failing file write suppresses the
clipboard sink; a failing clipboard write suppresses the paste sink;
the interactive loop survives a sink error while the spacebar loop
does not. -/
theorem C4_witness :
    (SinkEvent.clipboard "hi" ∉
        (runSinksFrom "hi" true true true PasteKey.ctrlV ⟨false, true, true⟩).1 ∧
      SinkEvent.paste PasteKey.ctrlV ∉
        (runSinksFrom "hi" true true true PasteKey.ctrlV ⟨false, true, true⟩).1 ∧
      (runSinksFrom "hi" true true true PasteKey.ctrlV ⟨false, true, true⟩).2 =
        some SinkFail.fileFail) ∧
    (SinkEvent.paste PasteKey.ctrlV ∉
        (runSinksFrom "hi" true true true PasteKey.ctrlV ⟨true, false, true⟩).1 ∧
      (runSinksFrom "hi" true true true PasteKey.ctrlV ⟨true, false, true⟩).2 =
        some SinkFail.clipFail) ∧
    interactiveFate (some SinkFail.clipFail) = Fate.continueSession ∧
    spacebarFate (some SinkFail.fileFail) = Fate.terminated :=
  ⟨(C4_amended_sink_failure "hi" true true true PasteKey.ctrlV ⟨false, true, true⟩).1 rfl rfl,
    (C4_amended_sink_failure "hi" true true true PasteKey.ctrlV ⟨true, false, true⟩).2.1
      rfl rfl (fun _ => rfl),
    (C4_amended_sink_failure "hi" true true true PasteKey.ctrlV ⟨true, false, true⟩).2.2.1
      (some SinkFail.clipFail),
    (C4_amended_sink_failure "hi" true true true PasteKey.ctrlV ⟨false, true, true⟩).2.2.2
      SinkFail.fileFail⟩

/-- The recording loop, when neither hotkey is ever pressed and the
running flag stays set, always leaves via the max-duration ceiling,
with a recorded time of at least maxMs and under maxMs plus one chunk
read.  Induction on a fuel bound for the remaining time. -/
theorem recLoop_bound (maxMs : Nat) (ss esc run : Nat → Bool)
    (hss : ∀ n, ss n = false) (hesc : ∀ n, esc n = false) (hrun : ∀ n, run n = true) :
    ∀ fuel elapsed frames iter, maxMs - elapsed ≤ fuel → elapsed < maxMs + chunkMs →
      (recLoop maxMs ss esc run elapsed frames iter).1 = StopReason.maxDuration ∧
      maxMs ≤ (recLoop maxMs ss esc run elapsed frames iter).2.1 ∧
      (recLoop maxMs ss esc run elapsed frames iter).2.1 < maxMs + chunkMs := by
  intro fuel
  induction fuel with
  | zero =>
    intro elapsed frames iter hfuel hlt
    have hge : ¬ elapsed < maxMs := by omega
    rw [recLoop]
    simp [hge]
    omega
  | succ fuel ih =>
    intro elapsed frames iter hfuel hlt
    rw [recLoop]
    by_cases hel : elapsed < maxMs
    · simp only [hel, dif_pos, hrun iter, hss iter, hesc iter, if_true, if_false,
        Bool.false_eq_true]
      exact ih (elapsed + chunkMs) (frames + 1) (iter + 1)
        (by have : chunkMs = 64 := rfl; omega)
        (by have : chunkMs = 64 := rfl; omega)
    · simp [hel]
      omega

/-- Claim C6: spacebar-mode recording with the 60-second ceiling
(max_duration=60 at line 377, in milliseconds here) stops through the
max-duration condition even when the stop hotkey, the escape key and
the shutdown signal never arrive, after recording at least 60 s and
less than 60 s plus one 64 ms chunk read (the stop condition is
re-checked between chunk reads, so no read begins at or past the
ceiling), and the mode then proceeds to transcription. -/
theorem C6_recording_bounded (ss esc run : Nat → Bool)
    (hss : ∀ n, ss n = false) (hesc : ∀ n, esc n = false) (hrun : ∀ n, run n = true) :
    (recLoop 60000 ss esc run 0 0 0).1 = StopReason.maxDuration ∧
    60000 ≤ (recLoop 60000 ss esc run 0 0 0).2.1 ∧
    (recLoop 60000 ss esc run 0 0 0).2.1 < 60000 + chunkMs ∧
    afterRecordSpacebar true = Phase.transcribing := by
  have h := recLoop_bound 60000 ss esc run hss hesc hrun 60000 0 0 0 (by omega)
    (by have : chunkMs = 64 := rfl; omega)
  exact ⟨h.1, h.2.1, h.2.2, rfl⟩

/-- Witness for C6 with concretely silent hotkeys and a never-cleared
running flag. -/
theorem C6_witness :
    (recLoop 60000 (fun _ => false) (fun _ => false) (fun _ => true) 0 0 0).1 =
      StopReason.maxDuration ∧
    60000 ≤ (recLoop 60000 (fun _ => false) (fun _ => false) (fun _ => true) 0 0 0).2.1 ∧
    (recLoop 60000 (fun _ => false) (fun _ => false) (fun _ => true) 0 0 0).2.1 <
      60000 + chunkMs ∧
    afterRecordSpacebar true = Phase.transcribing :=
  C6_recording_bounded (fun _ => false) (fun _ => false) (fun _ => true)
    (fun _ => rfl) (fun _ => rfl) (fun _ => rfl)

/-- Counterexample to claim C7 as stated: the save command with a
missing argument is answered with a diagnostic, but it does NOT leave
the open transcript file handle unchanged: the handle is closed before
the argument is examined, and stays closed. -/
theorem C7_counterexample :
    stEx.outputFile = some "t.txt" ∧
    (processCommand (fun _ => true) stEx "save").1.outputFile = none ∧
    (processCommand (fun _ => true) stEx "save").1 ≠ stEx ∧
    (processCommand (fun _ => true) stEx "save").2.2 = ShellFate.continueLoop := by
  decide

/-- Claim C7 as amended: an unknown command, or a clipboard, autopaste,
delay, model or duration command with a malformed argument, prints a
diagnostic, leaves the whole settings record and the transcript handle
unchanged and keeps the shell running; the save command with a missing
argument also prints a diagnostic and keeps the shell running, but
first closes any open transcript file handle, which stays closed. -/
theorem C7_amended_shell_errors (lk : String → Bool) (st : ISettings) (cmd arg : String) :
    (cmd ∉ knownCmds →
      processParsed lk st cmd arg =
        (st, ["Unknown command: " ++ cmd, "Type help for available commands"],
          ShellFate.continueLoop)) ∧
    (cmd = "clipboard" → arg ∉ onWords → arg ∉ offWords →
      processParsed lk st cmd arg = (st, ["Invalid option: " ++ arg], ShellFate.continueLoop)) ∧
    (cmd = "autopaste" → arg ∉ onWords → arg ∉ offWords →
      processParsed lk st cmd arg = (st, ["Invalid option: " ++ arg], ShellFate.continueLoop)) ∧
    (cmd = "delay" → isValidDelay arg = false →
      processParsed lk st cmd arg = (st, ["Invalid delay: " ++ arg], ShellFate.continueLoop)) ∧
    (cmd = "model" → arg ∉ validModels →
      processParsed lk st cmd arg =
        (st, ["Invalid model name: " ++ arg], ShellFate.continueLoop)) ∧
    (cmd = "duration" → isPyDigit arg = false →
      processParsed lk st cmd arg =
        (st, ["Invalid duration: " ++ arg], ShellFate.continueLoop)) ∧
    (cmd = "save" → arg = "" →
      processParsed lk st cmd arg =
        ({ st with outputFile := none }, ["Please specify a filename"],
          ShellFate.continueLoop)) := by
  refine ⟨?_, ?_, ?_, ?_, ?_, ?_, ?_⟩
  · intro hu
    simp only [knownCmds, List.mem_cons, List.not_mem_nil, or_false, not_or] at hu
    obtain ⟨h1, h2, h3, h4, h5, h6, h7, h8, h9, h10, h11, h12, h13⟩ := hu
    simp [processParsed, h1, h2, h3, h4, h5, h6, h7, h8, h9, h10, h11, h12, h13]
  · intro hc h1 h2
    subst hc
    simp [processParsed, h1, h2]
  · intro hc h1 h2
    subst hc
    simp [processParsed, h1, h2]
  · intro hc h1
    subst hc
    simp [processParsed, h1]
  · intro hc h1
    subst hc
    simp [processParsed, h1]
  · intro hc h1
    subst hc
    simp [processParsed, h1]
  · intro hc h1
    subst hc h1
    simp [processParsed, offWords]

/-- Witness for the amended C7: an unknown command and a malformed
clipboard argument leave the session state untouched, and the
no-argument save command closes the transcript handle while the shell
keeps running. -/
theorem C7_witness :
    processParsed (fun _ => true) stEx "frobnicate" "3" =
      (stEx, ["Unknown command: " ++ "frobnicate", "Type help for available commands"],
        ShellFate.continueLoop) ∧
    processParsed (fun _ => true) stEx "clipboard" "maybe" =
      (stEx, ["Invalid option: " ++ "maybe"], ShellFate.continueLoop) ∧
    processParsed (fun _ => true) stEx "delay" "fast" =
      (stEx, ["Invalid delay: " ++ "fast"], ShellFate.continueLoop) ∧
    processParsed (fun _ => true) stEx "save" "" =
      ({ stEx with outputFile := none }, ["Please specify a filename"],
        ShellFate.continueLoop) :=
  ⟨(C7_amended_shell_errors (fun _ => true) stEx "frobnicate" "3").1 (by decide),
    (C7_amended_shell_errors (fun _ => true) stEx "clipboard" "maybe").2.1 rfl
      (by decide) (by decide),
    (C7_amended_shell_errors (fun _ => true) stEx "delay" "fast").2.2.2.1 rfl (by decide),
    (C7_amended_shell_errors (fun _ => true) stEx "save" "").2.2.2.2.2.2 rfl rfl⟩

/-- Counterexample to claim C8 as stated: with the small model active,
a model large command whose load fails keeps the small model active
but stores the name large, so the stored model-name setting no longer
names the model that is actually active. -/
theorem C8_counterexample :
    (processParsed lkFail stEx "model" "large").1.model = "large" ∧
    (processParsed lkFail stEx "model" "large").1.loadedModel = "small" ∧
    (processParsed lkFail stEx "model" "large").1.model ≠
      (processParsed lkFail stEx "model" "large").1.loadedModel := by
  decide

/-- Claim C8 as amended: when a valid model name fails to load, the
failure is reported and the previously loaded model remains active,
but the stored model-name setting was already updated to the requested
name before the load was attempted, so it names the requested model
rather than the active one; the shell keeps running. -/
theorem C8_amended_model_load (lk : String → Bool) (st : ISettings) (arg : String)
    (hv : arg ∈ validModels) (hne : arg ≠ st.model) (hf : lk arg = false) :
    processParsed lk st "model" arg =
      ({ st with model := arg }, ["Changing model to " ++ arg, "Error:"],
        ShellFate.continueLoop) ∧
    ({ st with model := arg } : ISettings).loadedModel = st.loadedModel := by
  constructor
  · simp [processParsed, hv, hne, hf]
  · rfl

/-- Witness for the amended C8 at the failing loader and the small
session. -/
theorem C8_witness :
    processParsed lkFail stEx "model" "large" =
      ({ stEx with model := "large" }, ["Changing model to " ++ "large", "Error:"],
        ShellFate.continueLoop) ∧
    ({ stEx with model := "large" } : ISettings).loadedModel = stEx.loadedModel :=
  C8_amended_model_load lkFail stEx "large" (by decide) (by decide) (by decide)

end Dictate
